import Mathlib

/-!
Shallow embedding of the quant_agent backtesting simulator
(portfolio, risk manager, order executor, backtest loop) and proofs
checking the specification's claims against it.

Modelling conventions:
* Python floats are modelled as exact rationals (ℚ); `round(x, 2)` is
  modelled as round-half-to-even at cent precision on the rational value.
* Python ints are ℤ (arbitrary precision); `int(x)` is truncation toward 0.
* Python dicts are insertion-ordered association lists; assignment updates
  the value in place (keeping the key's position) or appends a new entry.
* Mutating methods become functions returning the updated state; methods
  returning a success flag return a pair `Bool × State`.
* Reason strings keep the constant part of the source's message; the
  interpolated numeric text of the source's f-strings is elided.
-/

set_option autoImplicit false
set_option maxRecDepth 100000

namespace QuantAgent

/-! ### Association lists modelling Python dicts -/

def dlookup {α β : Type} [DecidableEq α] : List (α × β) → α → Option β
  | [], _ => none
  | (k₂, v) :: rest, k => if k = k₂ then some v else dlookup rest k

def dset {α β : Type} [DecidableEq α] : List (α × β) → α → β → List (α × β)
  | [], k, v => [(k, v)]
  | (k₂, v₂) :: rest, k, v =>
      if k = k₂ then (k₂, v) :: rest else (k₂, v₂) :: dset rest k v

def derase {α β : Type} [DecidableEq α] : List (α × β) → α → List (α × β)
  | [], _ => []
  | (k₂, v₂) :: rest, k => if k = k₂ then rest else (k₂, v₂) :: derase rest k

/-! ### Numeric helpers: Python `round(x, 2)` and `int(x)` -/

/-- Round-half-to-even to an integer (Python's `round` on exact values). -/
def roundHalfEven (x : ℚ) : ℤ :=
  let f := ⌊x⌋
  let frac := x - f
  if frac < 1/2 then f
  else if 1/2 < frac then f + 1
  else if f % 2 = 0 then f else f + 1

/-- Python `round(x, 2)`: cent-precision rounding. -/
def round2 (x : ℚ) : ℚ := (roundHalfEven (x * 100) : ℚ) / 100

/-- Python `int(x)`: truncation toward zero. -/
def pyInt (x : ℚ) : ℤ := if 0 ≤ x then ⌊x⌋ else ⌈x⌉

/-! ### Portfolio (src/quant_agent/portfolio/portfolio.py) -/

structure Position where
  symbol : String
  quantity : ℤ
  avg_price : ℚ
  current_price : ℚ := 0
  deriving Repr, DecidableEq

def Position.market_value (p : Position) : ℚ := p.quantity * p.current_price

def Position.cost_basis (p : Position) : ℚ := p.quantity * p.avg_price

def Position.unrealized_pnl (p : Position) : ℚ := p.market_value - p.cost_basis

structure TradeRecord where
  date : String
  symbol : String
  side : String
  quantity : ℤ
  price : ℚ
  commission : ℚ := 0
  pnl : ℚ := 0
  deriving Repr, DecidableEq

structure EquitySnapshot where
  date : String
  equity : ℚ
  cash : ℚ
  position_value : ℚ
  realized_pnl : ℚ
  unrealized_pnl : ℚ
  deriving Repr, DecidableEq

structure Portfolio where
  initial_capital : ℚ
  cash : ℚ
  positions : List (String × Position)
  trade_history : List TradeRecord
  equity_history : List EquitySnapshot
  realized_pnl : ℚ
  deriving Repr, DecidableEq

def Portfolio.init (initial_capital : ℚ) : Portfolio :=
  { initial_capital := initial_capital
    cash := initial_capital
    positions := []
    trade_history := []
    equity_history := []
    realized_pnl := 0 }

def Portfolio.total_position_value (p : Portfolio) : ℚ :=
  (p.positions.map (fun kv => kv.2.market_value)).sum

def Portfolio.total_equity (p : Portfolio) : ℚ := p.cash + p.total_position_value

def Portfolio.unrealized_pnl (p : Portfolio) : ℚ :=
  (p.positions.map (fun kv => kv.2.unrealized_pnl)).sum

def Portfolio.buy (p : Portfolio) (symbol : String) (quantity : ℤ)
    (price commission : ℚ) (date : String) : Bool × Portfolio :=
  let total_cost : ℚ := quantity * price + commission
  if total_cost > p.cash then (false, p)
  else if quantity ≤ 0 then (false, p)
  else
    let positions :=
      match dlookup p.positions symbol with
      | some pos =>
          let total_quantity := pos.quantity + quantity
          let avg := (pos.avg_price * pos.quantity + price * quantity) / total_quantity
          dset p.positions symbol
            { pos with quantity := total_quantity, avg_price := avg, current_price := price }
      | none =>
          dset p.positions symbol
            { symbol := symbol, quantity := quantity, avg_price := price, current_price := price }
    let trade : TradeRecord :=
      { date := date, symbol := symbol, side := "buy", quantity := quantity
        price := price, commission := commission }
    (true, { p with cash := p.cash - total_cost, positions := positions
                    trade_history := p.trade_history ++ [trade] })

def Portfolio.sell (p : Portfolio) (symbol : String) (quantity : ℤ)
    (price commission : ℚ) (date : String) : Bool × Portfolio :=
  match dlookup p.positions symbol with
  | none => (false, p)
  | some pos =>
      if quantity > pos.quantity then (false, p)
      else if quantity ≤ 0 then (false, p)
      else
        let pnl := (price - pos.avg_price) * quantity - commission
        let revenue := quantity * price - commission
        let newQty := pos.quantity - quantity
        let positions :=
          if newQty = 0 then derase p.positions symbol
          else dset p.positions symbol
            { pos with quantity := newQty, current_price := price }
        let trade : TradeRecord :=
          { date := date, symbol := symbol, side := "sell", quantity := quantity
            price := price, commission := commission, pnl := pnl }
        (true, { p with cash := p.cash + revenue
                        realized_pnl := p.realized_pnl + pnl
                        positions := positions
                        trade_history := p.trade_history ++ [trade] })

def Portfolio.update_prices (p : Portfolio) (prices : List (String × ℚ)) : Portfolio :=
  { p with positions :=
      prices.foldl (fun ps kv =>
        match dlookup ps kv.1 with
        | some pos => dset ps kv.1 { pos with current_price := kv.2 }
        | none => ps) p.positions }

def Portfolio.record_equity (p : Portfolio) (date : String) : Portfolio :=
  { p with equity_history := p.equity_history ++
      [{ date := date, equity := p.total_equity, cash := p.cash
         position_value := p.total_position_value
         realized_pnl := p.realized_pnl, unrealized_pnl := p.unrealized_pnl }] }

/-! ### Risk manager (src/quant_agent/risk/risk_manager.py) -/

structure RiskLimits where
  max_position_pct : ℚ := 25/100
  max_total_position_pct : ℚ := 7/10
  stop_loss_pct : ℚ := 7/100
  take_profit_pct : ℚ := 10/100
  max_drawdown_pct : ℚ := 20/100
  max_daily_loss_pct : ℚ := 3/100
  deriving Repr, DecidableEq

structure RiskManager where
  limits : RiskLimits
  peak_equity : ℚ := 0
  daily_pnl : ℚ := 0
  daily_start_equity : ℚ := 0
  deriving Repr, DecidableEq

def RiskManager.init (limits : RiskLimits) : RiskManager := { limits := limits }

def RiskManager.check_position_size (rm : RiskManager) (_symbol : String)
    (proposed_quantity : ℤ) (price current_portfolio_value current_position_value : ℚ) :
    Bool × ℤ × String :=
  if current_portfolio_value ≤ 0 then (false, 0, "投资组合价值为零")
  else
    let proposed_value : ℚ := proposed_quantity * price
    let new_position_value := current_position_value + proposed_value
    let position_pct := new_position_value / current_portfolio_value
    if position_pct > rm.limits.max_position_pct then
      let max_value := rm.limits.max_position_pct * current_portfolio_value
        - current_position_value
      if max_value ≤ 0 then (false, 0, "仓位已达上限")
      else
        let adjusted_quantity := pyInt (max_value / price)
        if adjusted_quantity ≤ 0 then (false, 0, "仓位已达上限")
        else (true, adjusted_quantity, "仓位限制: 数量调整")
    else (true, proposed_quantity, "通过")

def RiskManager.check_total_exposure (rm : RiskManager)
    (total_position_value proposed_trade_value portfolio_value : ℚ) : Bool × String :=
  if portfolio_value ≤ 0 then (false, "投资组合价值为零")
  else
    let exposure := (total_position_value + proposed_trade_value) / portfolio_value
    if exposure > rm.limits.max_total_position_pct then (false, "总仓位暴露超过限制")
    else (true, "通过")

def RiskManager.check_stop_loss (rm : RiskManager)
    (entry_price current_price : ℚ) : Bool × String :=
  if entry_price ≤ 0 then (false, "建仓价格无效")
  else
    let loss_pct := (entry_price - current_price) / entry_price
    if loss_pct ≥ rm.limits.stop_loss_pct then (true, "触发止损")
    else (false, "未触发止损")

def RiskManager.check_take_profit (rm : RiskManager)
    (entry_price current_price : ℚ) : Bool × String :=
  if entry_price ≤ 0 then (false, "建仓价格无效")
  else
    let profit_pct := (current_price - entry_price) / entry_price
    if profit_pct ≥ rm.limits.take_profit_pct then (true, "触发止盈")
    else (false, "未触发止盈")

def RiskManager.check_trailing_stop (_rm : RiskManager)
    (entry_price current_price highest_price : ℚ)
    (trailing_pct : ℚ := 5/100) (activation_pct : ℚ := 3/100) : Bool × String :=
  if entry_price ≤ 0 ∨ highest_price ≤ 0 then (false, "价格无效")
  else
    let profit_from_entry := (highest_price - entry_price) / entry_price
    if profit_from_entry < activation_pct then (false, "未达到移动止损激活条件")
    else
      let pullback := (highest_price - current_price) / highest_price
      if pullback ≥ trailing_pct then (true, "触发移动止损")
      else (false, "未触发移动止损")

def RiskManager.check_max_drawdown (rm : RiskManager) (current_equity : ℚ) :
    RiskManager × Bool × String :=
  let rm := if current_equity > rm.peak_equity
    then { rm with peak_equity := current_equity } else rm
  if rm.peak_equity ≤ 0 then (rm, false, "权益数据无效")
  else
    let drawdown := (rm.peak_equity - current_equity) / rm.peak_equity
    if drawdown ≥ rm.limits.max_drawdown_pct then (rm, true, "触发最大回撤限制")
    else (rm, false, "当前回撤")

def RiskManager.check_daily_loss (rm : RiskManager)
    (current_equity start_equity : ℚ) : Bool × String :=
  if start_equity ≤ 0 then (false, "起始权益无效")
  else
    let daily_loss := (start_equity - current_equity) / start_equity
    if daily_loss ≥ rm.limits.max_daily_loss_pct then (true, "触发单日亏损限制")
    else (false, "当日盈亏")

def RiskManager.calculate_position_size (rm : RiskManager)
    (portfolio_value price signal_strength : ℚ) (atr : Option ℚ := none) : ℤ :=
  if portfolio_value ≤ 0 ∨ price ≤ 0 then 0
  else
    let base_pct := |signal_strength| * rm.limits.max_position_pct
    let base_pct :=
      match atr with
      | some a =>
          if a > 0 then
            let volatility_factor := min (price / (a * 20)) (3/2)
            base_pct * min volatility_factor 1
          else base_pct
      | none => base_pct
    let quantity := pyInt (portfolio_value * base_pct / price)
    max quantity 0

def RiskManager.update_peak_equity (rm : RiskManager) (equity : ℚ) : RiskManager :=
  if equity > rm.peak_equity then { rm with peak_equity := equity } else rm

/-! ### Order executor (src/quant_agent/execution/executor.py) -/

inductive OrderSide where
  | buy
  | sell
  deriving Repr, DecidableEq

inductive OrderStatus where
  | pending
  | filled
  | partially_filled
  | rejected
  | cancelled
  deriving Repr, DecidableEq

structure Order where
  symbol : String
  side : OrderSide
  quantity : ℤ
  price : ℚ
  order_id : String := ""
  status : OrderStatus := .pending
  filled_quantity : ℤ := 0
  filled_price : ℚ := 0
  commission : ℚ := 0
  reject_reason : String := ""
  date : String := ""
  deriving Repr, DecidableEq

structure OrderExecutor where
  commission_rate : ℚ := 1/1000
  slippage : ℚ := 1/1000
  order_history : List Order := []
  deriving Repr, DecidableEq

def OrderExecutor.create_order (ex : OrderExecutor) (symbol : String) (side : OrderSide)
    (quantity : ℤ) (price : ℚ) (date : String := "") : Order × OrderExecutor :=
  let order : Order :=
    { symbol := symbol, side := side, quantity := quantity, price := price, date := date }
  (order, { ex with order_history := ex.order_history ++ [order] })

/-- Slippage-adjusted fill price of `execute_order`: buys pay
`price·(1+slippage)`, sells receive `price·(1−slippage)`, rounded to cents. -/
def fillPrice (ex : OrderExecutor) (order : Order) : ℚ :=
  round2 (if order.side = .buy then order.price * (1 + ex.slippage)
          else order.price * (1 - ex.slippage))

/-- Commission of `execute_order`: computed from the order's quantity as it
stands BEFORE any risk adjustment, times fill price times the rate, rounded
to cents. -/
def fillCommission (ex : OrderExecutor) (order : Order) : ℚ :=
  round2 (order.quantity * fillPrice ex order * ex.commission_rate)

/-- Final fill attempt of `execute_order`: the order's `filled_price` and
`commission` are written before `portfolio.buy` or `portfolio.sell` is tried. -/
def execFill (order : Order) (portfolio : Portfolio)
    (filled_price commission : ℚ) : Order × Portfolio :=
  let order := { order with filled_price := filled_price, commission := commission }
  let step :=
    if order.side = .buy then
      portfolio.buy order.symbol order.quantity filled_price commission order.date
    else
      portfolio.sell order.symbol order.quantity filled_price commission order.date
  if step.1 then
    ({ order with status := .filled, filled_quantity := order.quantity }, step.2)
  else
    ({ order with status := .rejected, reject_reason := "交易执行失败（资金或持仓不足）" }, step.2)

def OrderExecutor.execute_order (ex : OrderExecutor) (order : Order)
    (portfolio : Portfolio) (risk_manager : Option RiskManager := none) :
    Order × Portfolio :=
  if order.status ≠ .pending then (order, portfolio)
  else
    let filled_price := fillPrice ex order
    let commission := fillCommission ex order
    match risk_manager, order.side with
    | some rm, .buy =>
        let current_position_value :=
          match dlookup portfolio.positions order.symbol with
          | some pos => pos.market_value
          | none => 0
        let check := rm.check_position_size order.symbol order.quantity filled_price
          portfolio.total_equity current_position_value
        if ¬ check.1 then
          ({ order with status := .rejected, reject_reason := check.2.2 }, portfolio)
        else
          let order :=
            if check.2.1 < order.quantity then { order with quantity := check.2.1 } else order
          let exposure := rm.check_total_exposure portfolio.total_position_value
            (order.quantity * filled_price) portfolio.total_equity
          if ¬ exposure.1 then
            ({ order with status := .rejected, reject_reason := exposure.2 }, portfolio)
          else execFill order portfolio filled_price commission
    | _, _ => execFill order portfolio filled_price commission

/-- The backtester's `create_order` followed by `execute_order` on the result.
The source stores the order object in `order_history` and then mutates it in
place during execution; this is modelled by appending the executed order. -/
def OrderExecutor.submit (ex : OrderExecutor) (symbol : String) (side : OrderSide)
    (quantity : ℤ) (price : ℚ) (date : String) (portfolio : Portfolio)
    (risk_manager : Option RiskManager) : Order × OrderExecutor × Portfolio :=
  let order : Order :=
    { symbol := symbol, side := side, quantity := quantity, price := price, date := date }
  let res := ex.execute_order order portfolio risk_manager
  (res.1, { ex with order_history := ex.order_history ++ [res.1] }, res.2)

/-! ### Signals and strategies (src/quant_agent/strategies/base.py)

Trading dates are modelled as naturals (`str(date)` becomes `toString`).
Indicator enrichment and `generate_signals` are external collaborators; a
strategy is therefore carried together with its pre-generated, date-indexed
signal map, exactly the shape `Backtester.run` builds in its pre-generation
step (`signal_by_date`, keyed per symbol and date). -/

inductive SignalType where
  | buy
  | sell
  | hold
  deriving Repr, DecidableEq

structure Signal where
  signal_type : SignalType
  strength : ℚ
  symbol : String
  strategy_name : String
  deriving Repr, DecidableEq

/-- Signal construction clamps strength into [-1, 1] (`__post_init__`). -/
def mkSignal (signal_type : SignalType) (strength : ℚ)
    (symbol strategy_name : String) : Signal :=
  { signal_type := signal_type, strength := max (-1) (min 1 strength)
    symbol := symbol, strategy_name := strategy_name }

structure Strategy where
  name : String
  weight : ℚ
  signals : List (String × List (ℕ × Signal))
  deriving Repr, DecidableEq

/-! ### Backtester (src/quant_agent/backtest/backtester.py) -/

structure Backtester where
  initial_capital : ℚ := 1000000
  commission_rate : ℚ := 1/1000
  slippage : ℚ := 1/1000
  risk_limits : RiskLimits := {}
  deriving Repr, DecidableEq

structure RunState where
  portfolio : Portfolio
  risk_manager : RiskManager
  executor : OrderExecutor
  position_high : List (String × ℚ)
  last_trade_date : List (String × ℤ)
  deriving Repr, DecidableEq

def trade_cooldown : ℤ := 10

/-- Exit queue of `_check_stop_loss_take_profit`: per open position with a
price this day, hard stop-loss, then trailing stop (skipped when the
running-high dict is empty), then hard take-profit; the first trigger queues
the full quantity.  The reason string carried purely for logging is elided. -/
def exitQueue (rm : RiskManager) (positions : List (String × Position))
    (prices position_high : List (String × ℚ)) : List (String × ℤ × ℚ) :=
  positions.filterMap (fun kv =>
    match dlookup prices kv.1 with
    | none => none
    | some current_price =>
        if (rm.check_stop_loss kv.2.avg_price current_price).1 then
          some (kv.1, kv.2.quantity, current_price)
        else if position_high ≠ [] ∧
            (rm.check_trailing_stop kv.2.avg_price current_price
              ((dlookup position_high kv.1).getD current_price)).1 then
          some (kv.1, kv.2.quantity, current_price)
        else if (rm.check_take_profit kv.2.avg_price current_price).1 then
          some (kv.1, kv.2.quantity, current_price)
        else none)

def check_stop_loss_take_profit (portfolio : Portfolio) (rm : RiskManager)
    (ex : OrderExecutor) (prices : List (String × ℚ)) (date_str : String)
    (position_high : List (String × ℚ)) :
    Portfolio × OrderExecutor × List String :=
  (exitQueue rm portfolio.positions prices position_high).foldl
    (fun acc item =>
      let res := acc.2.1.submit item.1 .sell item.2.1 item.2.2 date_str acc.1 none
      (res.2.2, res.2.1, acc.2.2 ++ [item.1]))
    (portfolio, ex, [])

/-- The five `recent_dates` of the signal-fusion window:
`all_dates[max(0, date_idx - d)]` for `d = 0..4`. -/
def recentDates (allDates : List ℕ) (idx : ℕ) : List ℕ :=
  (List.range 5).map (fun d => allDates.getD (idx - d) 0)

/-- A strategy's most recent signal inside the lookback window (first date
scanned that has a signal wins). -/
def findRecentSignal (sigMap : List (ℕ × Signal)) : List ℕ → Option Signal
  | [] => none
  | rd :: rest =>
      match dlookup sigMap rd with
      | some sig => some sig
      | none => findRecentSignal sigMap rest

structure Fusion where
  combined : ℚ
  total_weight : ℚ
  buy_count : ℕ
  sell_count : ℕ
  deriving Repr, DecidableEq

def fuseSignals (strategies : List Strategy) (symbol : String)
    (window : List ℕ) : Fusion :=
  strategies.foldl (fun acc strat =>
    match findRecentSignal ((dlookup strat.signals symbol).getD []) window with
    | some sig =>
        { combined := acc.combined + sig.strength * strat.weight
          total_weight := acc.total_weight + strat.weight
          buy_count := acc.buy_count + (if sig.signal_type = .buy then 1 else 0)
          sell_count := acc.sell_count +
            (if sig.signal_type = .buy then 0 else if sig.signal_type = .sell then 1 else 0) }
    | none => acc)
    { combined := 0, total_weight := 0, buy_count := 0, sell_count := 0 }

/-- The weighted combined strength after the `total_weight` normalisation. -/
def combinedStrength (strategies : List Strategy) (symbol : String)
    (window : List ℕ) : ℚ :=
  let f := fuseSignals strategies symbol window
  if f.total_weight > 0 then f.combined / f.total_weight else f.combined

/-- Majority consensus: at least two recent strategy signals agree with the
sign of the combined strength. -/
def hasConsensus (strategies : List Strategy) (symbol : String)
    (window : List ℕ) : Prop :=
  let f := fuseSignals strategies symbol window
  let combined := combinedStrength strategies symbol window
  (2 ≤ f.buy_count ∧ 0 < combined) ∨ (2 ≤ f.sell_count ∧ combined < 0)

instance (strategies : List Strategy) (symbol : String) (window : List ℕ) :
    Decidable (hasConsensus strategies symbol window) := by
  unfold hasConsensus; infer_instance

/-- Cooldown gate: no tracked last-trade index, or at least `trade_cooldown`
date indices have passed since it. -/
def cooldownOk (last_trade_date : List (String × ℤ)) (symbol : String)
    (idx : ℕ) : Prop :=
  match dlookup last_trade_date symbol with
  | some li => trade_cooldown ≤ (idx : ℤ) - li
  | none => True

instance (m : List (String × ℤ)) (symbol : String) (idx : ℕ) :
    Decidable (cooldownOk m symbol idx) := by
  unfold cooldownOk
  cases dlookup m symbol <;> simp <;> infer_instance

/-- One symbol's signal-fusion / dispatch step inside the daily loop. -/
def processSymbol (signal_threshold : ℚ) (strategies : List Strategy)
    (allDates : List ℕ) (idx : ℕ) (date_str : String)
    (prices : List (String × ℚ)) (st : RunState) (symbol : String) : RunState :=
  match dlookup prices symbol with
  | none => st
  | some price =>
      let window := recentDates allDates idx
      let combined := combinedStrength strategies symbol window
      if |combined| ≥ signal_threshold ∧ hasConsensus strategies symbol window then
        if ¬ cooldownOk st.last_trade_date symbol idx then st
        else
          if combined > 0 ∧ dlookup st.portfolio.positions symbol = none then
            let quantity := st.risk_manager.calculate_position_size
              st.portfolio.total_equity price combined
            if quantity > 0 then
              let res := st.executor.submit symbol .buy quantity price date_str
                st.portfolio (some st.risk_manager)
              let st := { st with executor := res.2.1, portfolio := res.2.2 }
              if res.1.status = .filled then
                { st with position_high := dset st.position_high symbol price
                          last_trade_date := dset st.last_trade_date symbol (idx : ℤ) }
              else st
            else st
          else if combined < 0 then
            match dlookup st.portfolio.positions symbol with
            | some pos =>
                let res := st.executor.submit symbol .sell pos.quantity price date_str
                  st.portfolio (some st.risk_manager)
                let st := { st with executor := res.2.1, portfolio := res.2.2 }
                if res.1.status = .filled then
                  { st with position_high := derase st.position_high symbol
                            last_trade_date := dset st.last_trade_date symbol (idx : ℤ) }
                else st
            | none => st
          else st
      else st

/-- One day of the main loop of `Backtester.run`. -/
def dayStep (signal_threshold : ℚ) (strategies : List Strategy)
    (data : List (String × List (ℕ × ℚ))) (allDates : List ℕ)
    (st : RunState) (idx : ℕ) (date : ℕ) : RunState :=
  let date_str := toString date
  let prices : List (String × ℚ) :=
    data.filterMap (fun kv => (dlookup kv.2 date).map (fun c => (kv.1, c)))
  let portfolio := st.portfolio.update_prices prices
  let position_high := prices.foldl (fun ph kv =>
      if (dlookup portfolio.positions kv.1).isSome then
        match dlookup ph kv.1 with
        | some h => if kv.2 > h then dset ph kv.1 kv.2 else ph
        | none => dset ph kv.1 kv.2
      else ph) st.position_high
  let exits := check_stop_loss_take_profit portfolio st.risk_manager st.executor
    prices date_str position_high
  let st := { st with
    portfolio := exits.1, executor := exits.2.1
    position_high := exits.2.2.foldl (fun ph s => derase ph s) position_high }
  let dd := st.risk_manager.check_max_drawdown st.portfolio.total_equity
  let st := { st with risk_manager := dd.1 }
  if dd.2.1 then { st with portfolio := st.portfolio.record_equity date_str }
  else
    let st := data.foldl
      (fun s kv => processSymbol signal_threshold strategies allDates idx date_str prices s kv.1)
      st
    let st := { st with
      risk_manager := st.risk_manager.update_peak_equity st.portfolio.total_equity }
    { st with portfolio := st.portfolio.record_equity date_str }

/-- Insertion into a sorted, duplicate-free date list. -/
def insertDate (d : ℕ) : List ℕ → List ℕ
  | [] => [d]
  | x :: xs => if d < x then d :: x :: xs else if d = x then x :: xs else x :: insertDate d xs

/-- `sorted(set(...))` over all instruments' trading dates. -/
def sortedDates (ds : List ℕ) : List ℕ :=
  ds.foldl (fun acc d => insertDate d acc) []

def foldIdx {σ α : Type} (f : σ → ℕ → α → σ) : σ → ℕ → List α → σ
  | s, _, [] => s
  | s, i, x :: xs => foldIdx f (f s i x) (i + 1) xs

/-- `Backtester.run`: `none` models the empty result returned when the union
of trading dates is empty. -/
def Backtester.run (bt : Backtester) (strategies : List Strategy)
    (data : List (String × List (ℕ × ℚ))) (signal_threshold : ℚ := 3/10) :
    Option RunState :=
  let allDates := sortedDates (data.foldr (fun kv acc => kv.2.map Prod.fst ++ acc) [])
  if allDates = [] then none
  else
    let st : RunState :=
      { portfolio := Portfolio.init bt.initial_capital
        risk_manager := (RiskManager.init bt.risk_limits).update_peak_equity bt.initial_capital
        executor := { commission_rate := bt.commission_rate, slippage := bt.slippage }
        position_high := []
        last_trade_date := [] }
    some (foldIdx (fun s i d => dayStep signal_threshold strategies data allDates s i d)
      st 0 allDates)

/-- Total trade count of a run (`metrics["total_trades"]` is
`len(portfolio.trade_history)`; the empty result carries no trades). -/
def runTradeCount (r : Option RunState) : ℕ :=
  match r with
  | none => 0
  | some st => st.portfolio.trade_history.length

/-! ### Association-list lemmas -/

theorem dlookup_dset_self {α β : Type} [DecidableEq α] (l : List (α × β)) (k : α) (v : β) :
    dlookup (dset l k v) k = some v := by
  induction l with
  | nil => simp [dset, dlookup]
  | cons hd tl ih =>
      obtain ⟨k₂, v₂⟩ := hd
      by_cases h : k = k₂
      · subst h; simp [dset, dlookup]
      · simp [dset, dlookup, h, ih]

theorem dlookup_eq_none_of_not_mem {α β : Type} [DecidableEq α] (l : List (α × β)) (k : α)
    (h : k ∉ l.map Prod.fst) : dlookup l k = none := by
  induction l with
  | nil => rfl
  | cons hd tl ih =>
      obtain ⟨k₂, v₂⟩ := hd
      simp only [List.map_cons, List.mem_cons, not_or] at h
      simp [dlookup, h.1, ih h.2]

theorem dlookup_derase_of_nodup {α β : Type} [DecidableEq α] (l : List (α × β)) (k : α)
    (h : (l.map Prod.fst).Nodup) : dlookup (derase l k) k = none := by
  induction l with
  | nil => rfl
  | cons hd tl ih =>
      obtain ⟨k₂, v₂⟩ := hd
      simp only [List.map_cons, List.nodup_cons] at h
      by_cases hk : k = k₂
      · subst hk; simpa [derase] using dlookup_eq_none_of_not_mem tl k h.1
      · simp [derase, dlookup, hk, ih h.2]

/-! ### Claim C2: stop-loss threshold -/

/-- C2 counterexample: with the default `RiskLimits`, whose `stop_loss_pct`
is 0.07 (not the 0.05 the claim assumes), `check_stop_loss(100.0, 95.0)` does
NOT trigger — the 5% loss is below the 7% default threshold, refuting the
claim's first conjunct at its own concrete input. -/
theorem c2_default_stop_loss_cex :
    ((RiskManager.init {}).check_stop_loss 100 95).1 = false := by
  with_unfolding_all rfl

/-- C2 (amended): for a RiskManager whose limits set `stop_loss_pct = 0.05`
(as the unit-test fixture does; the default is 0.07), `check_stop_loss(100.0,
95.0)` triggers (5% loss meets the inclusive threshold) and
`check_stop_loss(100.0, 96.0)` does not (4% < 5%). -/
theorem c2_stop_loss_at_five_pct :
    ((RiskManager.init { stop_loss_pct := 5/100 }).check_stop_loss 100 95).1 = true ∧
    ((RiskManager.init { stop_loss_pct := 5/100 }).check_stop_loss 100 96).1 = false :=
  ⟨by with_unfolding_all rfl, by with_unfolding_all rfl⟩

/-! ### Claim C6: position-size check -/

/-- C6 counterexample: with the default limits (max fraction 0.25), the call
`check_position_size("A", 1, 100.0, 100.0, 0.0)` has headroom
`max_value = 0.25·100 − 0 = 25 > 0`, so the claim says it is allowed with
quantity `floor(25/100) = 0`; the code instead disallows (returns `false`)
because the clipped quantity is ≤ 0. -/
theorem c6_clip_to_zero_cex :
    ((RiskManager.init {}).check_position_size "A" 1 100 100 0).1 = false ∧
    (0 : ℚ) < (RiskManager.init {}).limits.max_position_pct * 100 - 0 ∧
    pyInt (((RiskManager.init {}).limits.max_position_pct * 100 - 0) / 100) = 0 :=
  ⟨by with_unfolding_all rfl, by norm_num [RiskManager.init],
    by with_unfolding_all rfl⟩

/-- C6 (amended): full case analysis of `check_position_size` for `q > 0`,
`p > 0`: disallow when `V ≤ 0`; allow unchanged when the resulting fraction
is within the limit; over the limit, disallow when headroom
`max_value = limit·V − c` is ≤ 0, disallow (rather than allow) when the
clipped quantity `floor(max_value/p)` is ≤ 0, and otherwise allow with the
clipped quantity. -/
theorem c6_check_position_size (rm : RiskManager) (s : String) (q : ℤ) (p V c : ℚ)
    (hq : 0 < q) (hp : 0 < p) :
    (V ≤ 0 → rm.check_position_size s q p V c = (false, 0, "投资组合价值为零")) ∧
    (0 < V → (c + q * p) / V ≤ rm.limits.max_position_pct →
      rm.check_position_size s q p V c = (true, q, "通过")) ∧
    (0 < V → rm.limits.max_position_pct < (c + q * p) / V →
      rm.limits.max_position_pct * V - c ≤ 0 →
      rm.check_position_size s q p V c = (false, 0, "仓位已达上限")) ∧
    (0 < V → rm.limits.max_position_pct < (c + q * p) / V →
      0 < rm.limits.max_position_pct * V - c →
      pyInt ((rm.limits.max_position_pct * V - c) / p) ≤ 0 →
      rm.check_position_size s q p V c = (false, 0, "仓位已达上限")) ∧
    (0 < V → rm.limits.max_position_pct < (c + q * p) / V →
      0 < rm.limits.max_position_pct * V - c →
      0 < pyInt ((rm.limits.max_position_pct * V - c) / p) →
      rm.check_position_size s q p V c =
        (true, pyInt ((rm.limits.max_position_pct * V - c) / p), "仓位限制: 数量调整")) := by
  unfold RiskManager.check_position_size
  refine ⟨fun hV => by rw [if_pos hV], ?_, ?_, ?_, ?_⟩
  · intro hV hle
    rw [if_neg (not_le.mpr hV), if_neg (not_lt.mpr hle)]
  · intro hV hgt hmv
    rw [if_neg (not_le.mpr hV), if_pos hgt, if_pos hmv]
  · intro hV hgt hmv hadj
    rw [if_neg (not_le.mpr hV), if_pos hgt, if_neg (not_le.mpr hmv), if_pos hadj]
  · intro hV hgt hmv hadj
    rw [if_neg (not_le.mpr hV), if_pos hgt, if_neg (not_le.mpr hmv),
      if_neg (not_le.mpr hadj)]

/-- C6 witness: a within-limit proposal passes unchanged. -/
theorem c6_check_position_size_witness :
    (RiskManager.init {}).check_position_size "A" 1 10 1000 0 = (true, 1, "通过") :=
  (c6_check_position_size (RiskManager.init {}) "A" 1 10 1000 0 (by norm_num)
    (by norm_num)).2.1 (by norm_num) (by norm_num [RiskManager.init])

/-! ### Claim C7: single-buy end-to-end scenario -/

def c7executor : OrderExecutor := { commission_rate := 1/1000, slippage := 1/1000 }

def c7order : Order := { symbol := "AAA", side := .buy, quantity := 100, price := 100 }

def c7result : Order × Portfolio :=
  c7executor.execute_order c7order (Portfolio.init 1000000) none

/-- C7: with starting capital 1,000,000, commission rate 0.001 and slippage
0.001, a single BUY of 100 units at reference price 100.0 fills at 100.10,
with commission 10.01, leaving cash 989,979.99. -/
theorem c7_single_buy_scenario :
    c7result.1.status = .filled ∧ c7result.1.filled_quantity = 100 ∧
    c7result.1.filled_price = 100.10 ∧ c7result.1.commission = 10.01 ∧
    c7result.2.cash = 989979.99 :=
  ⟨by with_unfolding_all rfl, by with_unfolding_all rfl, by with_unfolding_all rfl,
    by with_unfolding_all rfl, by with_unfolding_all rfl⟩

/-! ### Claim C9: executing a terminal order is a no-op -/

/-- C9: `execute_order` on an order whose status is not PENDING returns the
order and the portfolio unchanged. -/
theorem c9_terminal_execute_noop (ex : OrderExecutor) (order : Order)
    (portfolio : Portfolio) (rm : Option RiskManager)
    (h : order.status ≠ .pending) :
    ex.execute_order order portfolio rm = (order, portfolio) := by
  unfold OrderExecutor.execute_order
  rw [if_pos h]

def c9order : Order :=
  { symbol := "A", side := .buy, quantity := 7, price := 10, status := .filled
    filled_quantity := 7, filled_price := 10.01, commission := 1/10 }

/-- C9 witness: re-executing a FILLED order changes nothing. -/
theorem c9_terminal_execute_noop_witness :
    OrderExecutor.execute_order {} c9order (Portfolio.init 500) none
      = (c9order, Portfolio.init 500) :=
  c9_terminal_execute_noop {} c9order (Portfolio.init 500) none (by decide)

/-! ### Claim C1: cash non-negativity under buy/sell/update/record sequences -/

inductive PortfolioOp where
  | buyOp (symbol : String) (quantity : ℤ) (price commission : ℚ) (date : String)
  | sellOp (symbol : String) (quantity : ℤ) (price commission : ℚ) (date : String)
  | updatePricesOp (prices : List (String × ℚ))
  | recordEquityOp (date : String)
  deriving Repr, DecidableEq

def PortfolioOp.apply (p : Portfolio) : PortfolioOp → Portfolio
  | buyOp s q pr c d => (p.buy s q pr c d).2
  | sellOp s q pr c d => (p.sell s q pr c d).2
  | updatePricesOp prices => p.update_prices prices
  | recordEquityOp d => p.record_equity d

def applyOps (p : Portfolio) (ops : List PortfolioOp) : Portfolio :=
  ops.foldl PortfolioOp.apply p

/-- The claim's precondition: all price and commission arguments nonnegative. -/
def PortfolioOp.argsNonneg : PortfolioOp → Prop
  | buyOp _ _ pr c _ => 0 ≤ pr ∧ 0 ≤ c
  | sellOp _ _ pr c _ => 0 ≤ pr ∧ 0 ≤ c
  | updatePricesOp prices => ∀ kv ∈ prices, 0 ≤ kv.2
  | recordEquityOp _ => True

/-- The amendment's extra precondition: a sell's commission never exceeds its
proceeds. -/
def PortfolioOp.sellCommissionBounded : PortfolioOp → Prop
  | sellOp _ q pr c _ => c ≤ q * pr
  | _ => True

/-- C1 counterexample: starting from nonnegative capital 10 with every price
and commission argument nonnegative, buying 1 share at price 10 (commission
0) and then selling it at price 0 with commission 5 drives cash to −5:
`sell` never checks that the commission is covered. -/
theorem c1_negative_cash_cex :
    (applyOps (Portfolio.init 10)
      [.buyOp "A" 1 10 0 "", .sellOp "A" 1 0 5 ""]).cash = -5 ∧ ¬ ((0:ℚ) ≤ -5) :=
  ⟨by with_unfolding_all rfl, by norm_num⟩

theorem cash_nonneg_apply (p : Portfolio) (op : PortfolioOp) (hc : 0 ≤ p.cash)
    (hop : op.sellCommissionBounded) : 0 ≤ (op.apply p).cash := by
  cases op with
  | buyOp s q pr c d =>
      show 0 ≤ (p.buy s q pr c d).2.cash
      simp only [Portfolio.buy]
      split_ifs with h1 h2
      · exact hc
      · exact hc
      · show 0 ≤ p.cash - ((q : ℚ) * pr + c)
        have := not_lt.mp h1
        linarith
  | sellOp s q pr c d =>
      show 0 ≤ (p.sell s q pr c d).2.cash
      have hb : c ≤ (q : ℚ) * pr := hop
      unfold Portfolio.sell
      cases hl : dlookup p.positions s with
      | none => exact hc
      | some pos =>
          simp only []
          split_ifs with h1 h2 h3
          · exact hc
          · exact hc
          · show 0 ≤ p.cash + ((q : ℚ) * pr - c)
            linarith
          · show 0 ≤ p.cash + ((q : ℚ) * pr - c)
            linarith
  | updatePricesOp prices => exact hc
  | recordEquityOp d => exact hc

theorem applyOps_cash_nonneg (p : Portfolio) (ops : List PortfolioOp) (hc : 0 ≤ p.cash)
    (h : ∀ op ∈ ops, op.sellCommissionBounded) : 0 ≤ (applyOps p ops).cash := by
  induction ops generalizing p with
  | nil => exact hc
  | cons op rest ih =>
      exact ih _ (cash_nonneg_apply p op hc (h op (List.mem_cons_self op rest)))
        (fun o ho => h o (List.mem_cons_of_mem op ho))

/-- C1 (amended): for every Portfolio created with nonnegative initial
capital and every sequence of buy/sell/update_prices/record_equity calls with
nonnegative price and commission arguments in which, additionally, every
sell's commission is at most quantity×price, cash stays ≥ 0 after every call.
(Without the extra condition the claim fails: see the counterexample.) -/
theorem c1_cash_nonneg (c₀ : ℚ) (h₀ : 0 ≤ c₀) (ops : List PortfolioOp)
    (h : ∀ op ∈ ops, op.argsNonneg ∧ op.sellCommissionBounded) :
    0 ≤ (applyOps (Portfolio.init c₀) ops).cash :=
  applyOps_cash_nonneg (Portfolio.init c₀) ops h₀ (fun op ho => (h op ho).2)

/-- C1 witness: a concrete in-budget buy keeps cash nonnegative. -/
theorem c1_cash_nonneg_witness :
    0 ≤ (applyOps (Portfolio.init 10) [.buyOp "A" 1 10 0 ""]).cash :=
  c1_cash_nonneg 10 (by norm_num) [.buyOp "A" 1 10 0 ""] (by
    intro op hop
    simp only [List.mem_singleton] at hop
    subst hop
    exact ⟨⟨by norm_num, le_refl 0⟩, trivial⟩)

/-! ### Claim C3: sell accounting -/

/-- C3: a successful sell of 0 < q ≤ held quantity at price pr with
commission c against average price a adds (pr − a)·q − c to cumulative
realized P&L, credits cash by q·pr − c, decrements the position (deleting it
when it reaches zero), and appends exactly one sell TradeRecord carrying that
P&L. -/
theorem c3_sell_accounting (p : Portfolio) (s : String) (pos : Position) (q : ℤ)
    (pr c : ℚ) (d : String)
    (hnd : (p.positions.map Prod.fst).Nodup)
    (hpos : dlookup p.positions s = some pos)
    (hq : 0 < q) (hQ : q ≤ pos.quantity) :
    (p.sell s q pr c d).1 = true ∧
    (p.sell s q pr c d).2.realized_pnl = p.realized_pnl + ((pr - pos.avg_price) * q - c) ∧
    (p.sell s q pr c d).2.cash = p.cash + (q * pr - c) ∧
    (p.sell s q pr c d).2.trade_history = p.trade_history ++
      [{ date := d, symbol := s, side := "sell", quantity := q, price := pr
         commission := c, pnl := (pr - pos.avg_price) * q - c }] ∧
    (q = pos.quantity → dlookup (p.sell s q pr c d).2.positions s = none) ∧
    (q ≠ pos.quantity → dlookup (p.sell s q pr c d).2.positions s =
      some { pos with quantity := pos.quantity - q, current_price := pr }) := by
  unfold Portfolio.sell
  rw [hpos]
  simp only []
  rw [if_neg (not_lt.mpr hQ), if_neg (not_le.mpr hq)]
  refine ⟨rfl, rfl, rfl, rfl, ?_, ?_⟩
  · intro he
    have hz : pos.quantity - q = 0 := by omega
    rw [if_pos hz]
    exact dlookup_derase_of_nodup p.positions s hnd
  · intro hne
    have hz : pos.quantity - q ≠ 0 := by omega
    rw [if_neg hz]
    exact dlookup_dset_self p.positions s _

/-- C3 witness: selling 2 of 5 held shares at 12 with commission 1. -/
theorem c3_sell_accounting_witness :
    ((Portfolio.mk 1000 1000 [("A", ⟨"A", 5, 10, 10⟩)] [] [] 0).sell "A" 2 12 1 "d").2.cash
      = 1000 + (2 * 12 - 1) :=
  (c3_sell_accounting (Portfolio.mk 1000 1000 [("A", ⟨"A", 5, 10, 10⟩)] [] [] 0)
    "A" ⟨"A", 5, 10, 10⟩ 2 12 1 "d" (by simp) (by with_unfolding_all rfl)
    (by norm_num) (by norm_num)).2.2.1

/-! ### Claim C10: rejected executions still carry fill price and commission -/

theorem buy_fail_unchanged (p : Portfolio) (s : String) (q : ℤ) (pr c : ℚ) (d : String)
    (h : (p.buy s q pr c d).1 = false) : (p.buy s q pr c d).2 = p := by
  simp only [Portfolio.buy] at h ⊢
  by_cases h1 : (q : ℚ) * pr + c > p.cash
  · rw [if_pos h1]
  · rw [if_neg h1] at h ⊢
    by_cases h2 : q ≤ 0
    · rw [if_pos h2]
    · rw [if_neg h2] at h
      simp at h

theorem sell_fail_unchanged (p : Portfolio) (s : String) (q : ℤ) (pr c : ℚ) (d : String)
    (h : (p.sell s q pr c d).1 = false) : (p.sell s q pr c d).2 = p := by
  unfold Portfolio.sell at h ⊢
  cases hl : dlookup p.positions s with
  | none => rfl
  | some pos =>
      rw [hl] at h
      simp only [] at h ⊢
      by_cases h1 : q > pos.quantity
      · rw [if_pos h1]
      · rw [if_neg h1] at h ⊢
        by_cases h2 : q ≤ 0
        · rw [if_pos h2]
        · rw [if_neg h2] at h
          simp at h

/-- C10: a PENDING order with positive quantity and positive reference price
executed with no risk limiter whose `portfolio.buy`/`portfolio.sell` step
fails comes back REJECTED with `filled_quantity = 0`, yet with `filled_price`
and `commission` set to the slippage-adjusted fill price and the computed
commission, while the Portfolio is returned unchanged. -/
theorem c10_rejected_fill_fields (ex : OrderExecutor) (order : Order) (p : Portfolio)
    (hst : order.status = .pending) (hq : 0 < order.quantity) (hp : 0 < order.price)
    (hfq : order.filled_quantity = 0)
    (hfail : (if order.side = .buy
      then (p.buy order.symbol order.quantity (fillPrice ex order)
        (fillCommission ex order) order.date).1
      else (p.sell order.symbol order.quantity (fillPrice ex order)
        (fillCommission ex order) order.date).1) = false) :
    ex.execute_order order p none =
      ({ order with
          status := .rejected,
          reject_reason := "交易执行失败（资金或持仓不足）",
          filled_price := fillPrice ex order,
          commission := fillCommission ex order }, p) ∧
    (ex.execute_order order p none).1.filled_quantity = 0 := by
  have hmain : ex.execute_order order p none =
      ({ order with
          status := .rejected,
          reject_reason := "交易执行失败（资金或持仓不足）",
          filled_price := fillPrice ex order,
          commission := fillCommission ex order }, p) := by
    unfold OrderExecutor.execute_order
    rw [if_neg (by simp [hst])]
    show execFill order p (fillPrice ex order) (fillCommission ex order) = _
    unfold execFill
    simp only []
    cases hside : order.side with
    | buy =>
        rw [hside] at hfail
        rw [if_pos (rfl : OrderSide.buy = OrderSide.buy)] at hfail ⊢
        rw [hfail, if_neg (by simp), buy_fail_unchanged p _ _ _ _ _ hfail]
    | sell =>
        rw [hside] at hfail
        rw [if_neg (by simp : ¬ OrderSide.sell = OrderSide.buy)] at hfail ⊢
        rw [hfail, if_neg (by simp), sell_fail_unchanged p _ _ _ _ _ hfail]
  exact ⟨hmain, by rw [hmain, hfq]⟩

def c10executor : OrderExecutor := { commission_rate := 1/1000, slippage := 1/1000 }

def c10order : Order := { symbol := "A", side := .sell, quantity := 10, price := 100 }

/-- C10 witness: selling with no position held is rejected, yet the returned
order carries fill price 99.90 and the nonzero commission 1.00, and the
portfolio is unchanged. -/
theorem c10_rejected_fill_fields_witness :
    c10executor.execute_order c10order (Portfolio.init 1000) none =
      ({ c10order with
          status := .rejected,
          reject_reason := "交易执行失败（资金或持仓不足）",
          filled_price := fillPrice c10executor c10order,
          commission := fillCommission c10executor c10order }, Portfolio.init 1000) ∧
    fillPrice c10executor c10order = 99.90 ∧
    fillCommission c10executor c10order = 1 :=
  ⟨(c10_rejected_fill_fields c10executor c10order (Portfolio.init 1000) rfl
      (by norm_num [c10order]) (by norm_num [c10order]) rfl
      (by with_unfolding_all rfl)).1,
    by with_unfolding_all rfl, by with_unfolding_all rfl⟩

/-! ### Claim C4: exit pass priority and risk-free execution -/

/-- A trailing-stop check whose running high defaults to the current price
itself never triggers (pullback is 0 < 5%). -/
theorem check_trailing_stop_at_high (rm : RiskManager) (e cp : ℚ) :
    (rm.check_trailing_stop e cp cp).1 = false := by
  simp only [RiskManager.check_trailing_stop]
  split_ifs with h1 h2 h3
  · rfl
  · rfl
  · exfalso
    rw [sub_self, zero_div] at h3
    norm_num at h3
  · rfl

/-- Risk gating in `execute_order` only applies to BUY orders: passing a risk
manager on a SELL order changes nothing. -/
theorem execute_order_sell_rm_irrelevant (ex : OrderExecutor) (o : Order)
    (p : Portfolio) (rm : RiskManager) (h : o.side = .sell) :
    ex.execute_order o p (some rm) = ex.execute_order o p none := by
  unfold OrderExecutor.execute_order
  rw [h]

theorem submit_sell_rm_irrelevant (ex : OrderExecutor) (sym : String) (qty : ℤ)
    (pr : ℚ) (d : String) (p : Portfolio) (rm : RiskManager) :
    ex.submit sym .sell qty pr d p (some rm) = ex.submit sym .sell qty pr d p none := by
  simp only [OrderExecutor.submit]
  rw [execute_order_sell_rm_irrelevant ex _ p rm rfl]

/-- Reference reformulation of the exit pass following the claim's wording:
for every open position with a price available this day, hard stop-loss is
evaluated first, then the trailing stop against the running high (defaulting
to today's price), then hard take-profit; the first trigger queues the
position for a full-quantity SELL exit, and every queued exit is executed
through the executor even with the risk limiter passed along. -/
def exitPassSpec (portfolio : Portfolio) (rm : RiskManager) (ex : OrderExecutor)
    (prices : List (String × ℚ)) (date_str : String)
    (position_high : List (String × ℚ)) :
    Portfolio × OrderExecutor × List String :=
  let queue : List (String × ℤ × ℚ) := portfolio.positions.filterMap (fun kv =>
    match dlookup prices kv.1 with
    | none => none
    | some current_price =>
        if (rm.check_stop_loss kv.2.avg_price current_price).1 then
          some (kv.1, kv.2.quantity, current_price)
        else if (rm.check_trailing_stop kv.2.avg_price current_price
            ((dlookup position_high kv.1).getD current_price)).1 then
          some (kv.1, kv.2.quantity, current_price)
        else if (rm.check_take_profit kv.2.avg_price current_price).1 then
          some (kv.1, kv.2.quantity, current_price)
        else none)
  queue.foldl
    (fun acc item =>
      let res := acc.2.1.submit item.1 .sell item.2.1 item.2.2 date_str acc.1 (some rm)
      (res.2.2, res.2.1, acc.2.2 ++ [item.1]))
    (portfolio, ex, [])

/-- C4: the backtester's exit pass coincides with the claim's description:
stop-loss, then trailing stop on the running high, then take-profit, first
trigger wins per position, full-quantity SELL exits executed through the
executor — and passing the risk limiter would change nothing, since sells are
never subjected to position-size or exposure checks. -/
theorem c4_exit_pass_refines (portfolio : Portfolio) (rm : RiskManager)
    (ex : OrderExecutor) (prices : List (String × ℚ)) (date_str : String)
    (position_high : List (String × ℚ)) :
    check_stop_loss_take_profit portfolio rm ex prices date_str position_high
      = exitPassSpec portfolio rm ex prices date_str position_high := by
  unfold check_stop_loss_take_profit exitPassSpec
  have hqueue : exitQueue rm portfolio.positions prices position_high
      = portfolio.positions.filterMap (fun kv =>
        match dlookup prices kv.1 with
        | none => none
        | some current_price =>
            if (rm.check_stop_loss kv.2.avg_price current_price).1 then
              some (kv.1, kv.2.quantity, current_price)
            else if (rm.check_trailing_stop kv.2.avg_price current_price
                ((dlookup position_high kv.1).getD current_price)).1 then
              some (kv.1, kv.2.quantity, current_price)
            else if (rm.check_take_profit kv.2.avg_price current_price).1 then
              some (kv.1, kv.2.quantity, current_price)
            else none) := by
    unfold exitQueue
    apply List.filterMap_congr
    intro kv _
    cases dlookup prices kv.1 with
    | none => rfl
    | some current_price =>
        simp only []
        by_cases hhigh : position_high = []
        · subst hhigh
          simp [dlookup, check_trailing_stop_at_high]
        · simp [hhigh]
  rw [hqueue]
  apply List.foldl_ext
  intro acc item _
  rw [submit_sell_rm_irrelevant]

/-! ### Claims C5 and C8: signal gates over full runs

The concrete runs below use one instrument and two unit-weight strategies;
signal maps are the pre-generated inputs of `Backtester.run` (§6 of the spec
makes generation external).  Dates are the naturals 0, 1, 2, …, so a date's
index in the sorted date union equals the date itself. -/

def sigAt (ty : SignalType) (s : ℚ) (sym nm : String) : Signal := mkSignal ty s sym nm

def c5strats : List Strategy :=
  [ { name := "S1", weight := 1,
      signals := [("A", [(0, sigAt .buy (9/10) "A" "S1"),
                         (11, sigAt .buy (9/10) "A" "S1")])] },
    { name := "S2", weight := 1,
      signals := [("A", [(0, sigAt .buy (9/10) "A" "S2"),
                         (11, sigAt .buy (9/10) "A" "S2")])] } ]

def c5data : List (String × List (ℕ × ℚ)) :=
  [("A", [(0, 80), (1, 80), (2, 80), (3, 80), (4, 80), (5, 74), (6, 74),
          (7, 74), (8, 74), (9, 74), (10, 74), (11, 74)])]

/-- C5 counterexample: in this run a consensus BUY signal fills on day 0, the
7% hard stop exits the position on day 5 (a filled SELL trade), and on
day 11 a new signal-path BUY order is submitted and filled — only 6 trading
days after the last filled trade on the instrument, because the cooldown
tracker is stamped only by signal-path fills, not by stop-rule exits. -/
theorem c5_cooldown_cex :
    ((Backtester.run {} c5strats c5data (3/10)).map
      (fun st => st.portfolio.trade_history.map (fun t => (t.side, t.date))))
      = some [("buy", "0"), ("sell", "5"), ("buy", "11")] ∧
    (11 : ℤ) - 5 < trade_cooldown :=
  ⟨by with_unfolding_all rfl, by norm_num [trade_cooldown]⟩

/-- C5 (amended): a signal-path order for instrument s is submitted at date
index j only if |combined strength| ≥ the signal threshold, consensus holds
(≥2 same-direction votes), and j is at least 10 past the tracked last-trade
index for s — a tracker stamped only by signal-path fills (stop-rule exit
fills do not reset the cooldown). -/
theorem c5_signal_gate (signal_threshold : ℚ) (strategies : List Strategy)
    (allDates : List ℕ) (idx : ℕ) (date_str : String)
    (prices : List (String × ℚ)) (st : RunState) (symbol : String)
    (h : (processSymbol signal_threshold strategies allDates idx date_str prices
        st symbol).executor.order_history ≠ st.executor.order_history) :
    signal_threshold ≤ |combinedStrength strategies symbol (recentDates allDates idx)| ∧
    hasConsensus strategies symbol (recentDates allDates idx) ∧
    cooldownOk st.last_trade_date symbol idx := by
  unfold processSymbol at h
  cases hp : dlookup prices symbol with
  | none => rw [hp] at h; exact absurd rfl h
  | some price =>
      rw [hp] at h
      simp only [] at h
      by_cases hg : |combinedStrength strategies symbol (recentDates allDates idx)|
          ≥ signal_threshold ∧ hasConsensus strategies symbol (recentDates allDates idx)
      · rw [if_pos hg] at h
        by_cases hcd : ¬ cooldownOk st.last_trade_date symbol idx
        · rw [if_pos hcd] at h
          exact absurd rfl h
        · exact ⟨hg.1, hg.2, not_not.mp hcd⟩
      · rw [if_neg hg] at h
        exact absurd rfl h

def c5wState : RunState :=
  { portfolio := Portfolio.init 1000000
    risk_manager := RiskManager.init {}
    executor := { commission_rate := 1/1000, slippage := 1/1000 }
    position_high := []
    last_trade_date := [] }

/-- C5 witness: a dispatch step that does submit an order satisfies all three
gates. -/
theorem c5_signal_gate_witness :
    (3/10 : ℚ) ≤ |combinedStrength c5strats "A" (recentDates [0] 0)| ∧
    hasConsensus c5strats "A" (recentDates [0] 0) ∧
    cooldownOk c5wState.last_trade_date "A" 0 :=
  c5_signal_gate (3/10) c5strats [0] 0 "0" [("A", 80)] c5wState "A" (by
    intro heq
    have hlen : (processSymbol (3/10) c5strats [0] 0 "0" [("A", 80)]
        c5wState "A").executor.order_history.length = 1 := by
      with_unfolding_all rfl
    rw [heq] at hlen
    simp [c5wState] at hlen)

def c8strats : List Strategy :=
  [ { name := "S1", weight := 1,
      signals := [("A", [(0, sigAt .buy (15/100) "A" "S1"),
                         (1, sigAt .buy (9/10) "A" "S1"),
                         (12, sigAt .buy (9/10) "A" "S1")])] },
    { name := "S2", weight := 1,
      signals := [("A", [(0, sigAt .buy (15/100) "A" "S2"),
                         (1, sigAt .buy (9/10) "A" "S2"),
                         (12, sigAt .buy (9/10) "A" "S2")])] } ]

def c8data : List (String × List (ℕ × ℚ)) :=
  [("A", [(0, 100), (1, 102), (2, 94), (3, 94), (4, 94), (5, 94), (6, 94),
          (7, 94), (8, 94), (9, 94), (10, 94), (11, 94), (12, 94)])]

/-- C8 counterexample: on this data the 0.1-threshold run takes the weak
day-0 signal, buys, and then holds through days whose 6.1% dip never reaches
the 7% stop — 1 trade in total (cooldown blocks day 1 and the position
blocks day 12).  The 0.8-threshold run skips day 0, buys on the strong day-1
signal at a higher price, is stopped out on day 2 (7.9% ≥ 7%), and buys
again on day 12 — 3 trades.  Raising the threshold from 0.1 to 0.8
increases the total trade count from 1 to 3. -/
theorem c8_threshold_cex :
    runTradeCount (Backtester.run {} c8strats c8data (8/10)) = 3 ∧
    runTradeCount (Backtester.run {} c8strats c8data (1/10)) = 1 ∧
    ¬ (3 : ℕ) ≤ 1 :=
  ⟨by with_unfolding_all rfl, by with_unfolding_all rfl, by norm_num⟩

/-- C8 (amended): the signal gate itself is monotone decision-wise — with the
same strategies, window and state, any (day, instrument) decision whose
combined strength and consensus pass the gate at threshold 0.8 also passes it
at threshold 0.1; the end-to-end total trade count, however, is not monotone
in the threshold, because executed trades feed back into positions and
cooldowns. -/
theorem c8_gate_monotone (t₁ t₂ : ℚ) (strategies : List Strategy) (symbol : String)
    (window : List ℕ) (h : t₁ ≤ t₂)
    (hg : t₂ ≤ |combinedStrength strategies symbol window| ∧
      hasConsensus strategies symbol window) :
    t₁ ≤ |combinedStrength strategies symbol window| ∧
    hasConsensus strategies symbol window :=
  ⟨le_trans h hg.1, hg.2⟩

/-- C8 witness: the day-0 gate of the C5 scenario passes at threshold 0.8,
hence also at 0.1. -/
theorem c8_gate_monotone_witness :
    (1/10 : ℚ) ≤ |combinedStrength c5strats "A" (recentDates [0] 0)| ∧
    hasConsensus c5strats "A" (recentDates [0] 0) := by
  have hcs : combinedStrength c5strats "A" (recentDates [0] 0) = 9/10 := by
    with_unfolding_all rfl
  have hf : fuseSignals c5strats "A" (recentDates [0] 0)
      = { combined := 9/5, total_weight := 2, buy_count := 2, sell_count := 0 } := by
    with_unfolding_all rfl
  refine c8_gate_monotone (1/10) (8/10) c5strats "A" (recentDates [0] 0)
    (by norm_num) ⟨?_, ?_⟩
  · rw [hcs, abs_of_nonneg (by norm_num : (0:ℚ) ≤ 9/10)]; norm_num
  · unfold hasConsensus
    rw [hf]
    left
    exact ⟨by norm_num, by rw [hcs]; norm_num⟩

end QuantAgent
